import Mathlib

/-!
Verification development for the `frappe_whatsapp_chatbot` repository.

This file gives a shallow embedding of the conversation flow engine
(`chatbot/flow_engine.py`), the session lifecycle manager
(`chatbot/session_manager.py`) and the document hooks
(`doctype/whatsapp_chatbot_session/whatsapp_chatbot_session.py`,
`doctype/whatsapp_flow_step/whatsapp_flow_step.py`), and proves or refutes
the frozen claims about them.

Modelling conventions:
- Python strings are Lean `String`s; Python `None`-or-string fields are
  modelled as `String` with `""` playing the falsy role, which matches every
  use in the source (all such fields are only tested for truthiness or
  compared with string literals).
- JSON-valued document fields (`conditional_next`, `session_data`, `buttons`,
  `field_mapping`) are modelled in already-parsed form; `parse_json` in the
  source accepts both strings and parsed values and returns `{}`/`[]` on
  malformed input, which behaves identically to an empty parsed value in
  every consuming site.
- Timestamps are `Int` (an abstract clock); `datetime.now()` is a `now`
  parameter held constant during one engine call.
- The Python `re` module and `datetime.strptime` are external libraries;
  they are oracle fields of `Env`.  The handful of compile-time constant
  regexes in `validate_input` are known-valid patterns, so they go through
  the total matcher `rxv`; the author-supplied `validation_regex` goes
  through the fallible `rxc`, whose `.error` result models `re.error`.
- User scripts (`run_response_script`, `evaluate_skip_condition`) execute
  arbitrary code; they are modelled as pure oracles returning a scalar
  Python value resp. a boolean (the source wraps both in try/except, the
  skip oracle already incorporates the catch-to-False).  Dict-shaped script
  responses and script side effects are outside the claims considered.
- `frappe.db.commit` is not modelled separately: `save` persists the
  in-memory document to the `db` copy of the state (single-connection view).
- Completion actions (`create_document`, `call_api`, `run_script`) are
  external side effects, each wrapped in its own try/except in the source;
  they are modelled as no-ops.
- Unbounded recursion in `silent_route` is modelled with fuel; running out
  of fuel raises an error, matching the CPython `RecursionError`, which the
  top-level `except Exception` of `process_input` catches like any fault.
-/

/-! ## Python-style helpers -/

/-- Python `a or b` on strings, where `""` is falsy. -/
def pyOr (a b : String) : String :=
  if a = "" then b else a

/-- Collapse an optional string to a string, the Python `dict.get` followed by
truthiness testing (`None` and `""` behave identically downstream). -/
def optS (o : Option String) : String :=
  o.getD ""

/-- Association-list lookup, Python `dict.get`. -/
def alookup {α : Type} (m : List (String × α)) (k : String) : Option α :=
  match m with
  | [] => none
  | (k', v) :: rest => if k' = k then some v else alookup rest k

/-- Association-list update, Python `d[k] = v` (dicts keep insertion order,
updating an existing key in place). -/
def alinsert (m : List (String × String)) (k v : String) : List (String × String) :=
  match m with
  | [] => [(k, v)]
  | (k', v') :: rest => if k' = k then (k, v) :: rest else (k', v') :: alinsert rest k v

/-- A scalar Python value, as produced by a user script. -/
inductive PyVal
  | vNone
  | vBool (b : Bool)
  | vInt (n : Int)
  | vStr (s : String)
deriving DecidableEq

/-- Python truthiness of a scalar value. -/
def PyVal.truthy : PyVal → Bool
  | .vNone => false
  | .vBool b => b
  | .vInt n => n != 0
  | .vStr s => s != ""

/-- Python `str()` of a scalar value. -/
def PyVal.pyStr : PyVal → String
  | .vNone => "None"
  | .vBool true => "True"
  | .vBool false => "False"
  | .vInt n => toString n
  | .vStr s => s

/-! ## String replacement (Python `str.replace`)

`str.replace` scans left to right replacing non-overlapping occurrences.
We define it on character lists to be able to reason about it.  The source
only ever calls it with non-empty patterns; for an empty pattern this
definition is the identity (a case that never arises). -/

def replaceAllF (pat rep : List Char) : Nat → List Char → List Char
  | 0, s => s
  | Nat.succ fuel, s =>
    match s with
    | [] => []
    | c :: rest =>
      if pat ≠ [] ∧ pat.isPrefixOf (c :: rest) then
        rep ++ replaceAllF pat rep fuel ((c :: rest).drop pat.length)
      else
        c :: replaceAllF pat rep fuel rest

/-- Replace every occurrence of `pat` in `s`, scanning left to right.  Each
step of the scan consumes at least one character, so `s.length` steps
always suffice; the fuel argument of `replaceAllF` only serves to make the
recursion structural. -/
def replaceAll (pat rep s : List Char) : List Char :=
  replaceAllF pat rep s.length s

/-- `str.replace` on strings. -/
def strReplace (s pat rep : String) : String :=
  String.mk (replaceAll pat.data rep.data s.data)

/-- The variable-substitution loop shared by `build_step_message`
(flow_engine.py lines 474-477) and `complete_flow` (lines 557-558):
`for key, value in session_data.items(): message = message.replace("{"+key+"}", str(value))`. -/
def substituteVars (vars : List (String × String)) (msg : String) : String :=
  vars.foldl (fun m kv => strReplace m ("\x7b" ++ kv.fst ++ "\x7d") kv.snd) msg

/-- Boolean substring test (Python `pat in s`). -/
def occursIn (pat : List Char) : List Char → Bool
  | [] => pat.isEmpty
  | c :: rest => pat.isPrefixOf (c :: rest) || occursIn pat rest

/-- `pat in s` on strings. -/
def strContains (s pat : String) : Bool :=
  occursIn pat.data s.data

/-- Python `str.lower` (ASCII case folding, which covers every comparison
the source performs). -/
def strLower (s : String) : String :=
  String.mk (s.data.map Char.toLower)

/-- Python `str.strip()`. -/
def strTrim (s : String) : String :=
  String.mk (((s.data.dropWhile Char.isWhitespace).reverse.dropWhile Char.isWhitespace).reverse)

/-- Python `str.startswith`. -/
def strStarts (s pat : String) : Bool :=
  pat.data.isPrefixOf s.data

/-- Python `str.split(sep)` for a non-empty separator; like `replaceAllF`,
the fuel (the length of the scanned list) only makes the recursion
structural. -/
def splitOnF (sep : List Char) (acc : List Char) : Nat → List Char → List (List Char)
  | 0, s => [acc.reverse ++ s]
  | Nat.succ fuel, s =>
    match s with
    | [] => [acc.reverse]
    | c :: rest =>
      if sep ≠ [] ∧ sep.isPrefixOf (c :: rest) then
        acc.reverse :: splitOnF sep [] fuel ((c :: rest).drop sep.length)
      else splitOnF sep (c :: acc) fuel rest

/-- Python `str.split(sep)` on strings. -/
def strSplit (s sep : String) : List String :=
  (splitOnF sep.data [] s.data.length s.data).map String.mk

/-! ## Data model -/

/-- Status of a WhatsApp Chatbot Session. -/
inductive Status
  | Active
  | Completed
  | Cancelled
  | Timeout
deriving DecidableEq

/-- One entry of the message log child table of a session. -/
structure SessionMessage where
  direction : String
  message : Option String
  timestamp : Int
  step_name : String
deriving DecidableEq

/-- A WhatsApp Flow Step child document, with the fields the engine reads. -/
structure Step where
  step_name : String
  idx : Nat
  input_type : String
  message : String
  message_type : String
  template : String
  options : String
  buttons : List String
  validation_regex : String
  validation_error : String
  max_retries : Nat
  retry_on_invalid : Bool
  next_step : String
  else_next_step : String
  conditional_next : List (String × String)
  skip_condition : String
  store_as : String
  target_flow : String
  response_script : String
  whatsapp_flow : String
  flow_cta : String
  flow_screen : String
deriving DecidableEq

/-- A WhatsApp Chatbot Flow document, with the fields the engine reads. -/
structure ChatFlow where
  steps : List Step
  cancel_keywords : String
  initial_message : String
  completion_message : String
  timeout_message : String
  on_complete_action : String
deriving DecidableEq

/-- A WhatsApp Chatbot Session document. -/
structure Session where
  name : String
  phone_number : String
  whatsapp_account : String
  status : Status
  current_flow : String
  current_step : String
  session_data : List (String × String)
  step_retries : Nat
  last_activity : Int
  completed_at : Option Int
  messages : List SessionMessage
deriving DecidableEq

/-- `WhatsAppChatbotSession.before_save` (whatsapp_chatbot_session.py lines
6-9): refresh `last_activity` on every save while the session is Active. -/
def WhatsAppChatbotSession.before_save (now : Int) (s : Session) : Session :=
  if s.status = .Active then { s with last_activity := now } else s

/-- `WhatsAppChatbotSession.add_message` (lines 11-18). -/
def WhatsAppChatbotSession.add_message (now : Int) (s : Session)
    (direction : String) (message : Option String) (step_name : String) : Session :=
  { s with messages := s.messages ++
      [{ direction := direction, message := message, timestamp := now, step_name := step_name }] }

/-- An outbound message payload, the output shapes of the engine. -/
inductive Msg
  | text (s : String)
  | templateRef (t : String)
  | interactive (message : String) (buttons : List String)
  | flowLaunch (message flow cta screen : String)
  | scriptVal (v : PyVal)
deriving DecidableEq

/-- What `silent_route` can return: `None`, a step document, or a final
(completion) message string. -/
inductive RouteResult
  | none
  | step (s : Step)
  | msg (s : String)
deriving DecidableEq

/-- Python truthiness of a `silent_route` result (`None` and `""` falsy,
document objects truthy). -/
def RouteResult.falsy : RouteResult → Bool
  | .none => true
  | .msg s => s == ""
  | .step _ => false

/-- Engine environment: the flow database and the external-library oracles. -/
structure Env where
  flows : List (String × ChatFlow)
  rxv : String → String → Bool
  rxc : String → String → Except Unit Bool
  strptimeOk : String → String → Bool
  scriptEval : String → List (String × String) → PyVal
  skipEval : String → List (String × String) → Bool

/-- Engine-visible faults (modelled exceptions). -/
inductive EngineErr
  | docNotFound (name : String)
  | attributeError (attr : String)
  | recursionLimit
deriving DecidableEq

/-- Engine state: the in-memory session document, its last persisted copy,
and the outbound messages created so far. -/
structure St where
  sess : Session
  db : Session
  outbox : List Msg
deriving DecidableEq

/-- `session.save(...)`: runs the `before_save` hook and persists. -/
def saveSession (now : Int) (st : St) : St :=
  let s := WhatsAppChatbotSession.before_save now st.sess
  { st with sess := s, db := s }

/-- In-memory `session.add_message`. -/
def addMessage (now : Int) (direction : String) (message : Option String)
    (step_name : String) (st : St) : St :=
  { st with sess := WhatsAppChatbotSession.add_message now st.sess direction message step_name }

/-! ## Message rendering -/

/-- `FlowEngine.build_step_message` (flow_engine.py lines 470-518). -/
def buildStepMessage (env : Env) (step : Step) (sess : Session) : Msg :=
  let message := substituteVars sess.session_data step.message
  if step.message_type = "Template" ∧ step.template ≠ "" then
    .templateRef step.template
  else if step.message_type = "Script" ∧ step.response_script ≠ "" then
    let script_response := env.scriptEval step.response_script sess.session_data
    if script_response.truthy then
      match script_response with
      | .vStr s => .text s
      | v => .scriptVal v
    else .text message
  else if step.input_type = "Button" ∧ step.buttons ≠ [] then
    .interactive message step.buttons
  else if step.input_type = "WhatsApp Flow" ∧ step.whatsapp_flow ≠ "" then
    .flowLaunch message step.whatsapp_flow (pyOr step.flow_cta "Open Form") step.flow_screen
  else if step.input_type = "Select" ∧ step.options ≠ "" then
    .text (message ++ "\n\nOptions: " ++ strReplace step.options "|" ", ")
  else .text message

/-- Python truthiness of a rendered message (`if not response: return`). -/
def Msg.falsy : Msg → Bool
  | .text s => s == ""
  | .scriptVal v => !v.truthy
  | _ => false

/-- `FlowEngine.send_and_log` (lines 321-357).  `log_text` is the message for
a string response, else `response.get("message")`; a truthy scalar that is
neither a string nor a dict raises AttributeError at `.get`. -/
def sendAndLog (now : Int) (response : Msg) (step_name : String) (st : St) :
    Except (EngineErr × St) St :=
  if response.falsy then .ok st
  else
    match response with
    | .scriptVal _ => .error (.attributeError "get", st)
    | r =>
      let log_text : Option String :=
        match r with
        | .text s => some s
        | .interactive m _ => some m
        | .flowLaunch m _ _ _ => some m
        | .templateRef _ => none
        | .scriptVal _ => none
      let st := addMessage now "Outgoing" log_text step_name st
      let st := saveSession now st
      .ok { st with outbox := st.outbox ++ [r] }

/-! ## Input validation -/

/-- The type-specific if/elif chain of `FlowEngine.validate_input` (lines
260-293); `some fail` is an early `return False, msg`, `none` means the
chain fell through. -/
def typedCheck (env : Env) (step : Step) (user_input : String) :
    Option (Bool × Option String) :=
  if step.input_type = "Select" then
    if step.options ≠ "" then
      let options := (((strSplit step.options "|").filter (fun o => strTrim o ≠ "")).map
        (fun o => strLower (strTrim o)))
      if strLower user_input ∉ options then
        some (false, some ("Please choose one of: " ++ strReplace step.options "|" ", "))
      else none
    else none
  else if step.input_type = "Number" then
    let cleaned := strReplace (strReplace user_input "," "") " " ""
    if env.rxv "^-?\\d+\\.?\\d*$" cleaned then none
    else some (false, some "Please enter a valid number.")
  else if step.input_type = "Email" then
    if env.rxv "^[^@\\s]+@[^@\\s]+\\.[^@\\s]+$" (strTrim user_input) then none
    else some (false, some "Please enter a valid email address.")
  else if step.input_type = "Phone" then
    let cleaned := String.mk (user_input.data.filter
      (fun c => !(c.isWhitespace || c = '-' || c = '(' || c = ')')))
    if env.rxv "^\\+?\\d\x7b10,15\x7d$" cleaned then none
    else some (false, some "Please enter a valid phone number.")
  else if step.input_type = "Date" then
    let date_formats := ["%Y-%m-%d", "%d-%m-%Y", "%d/%m/%Y", "%m/%d/%Y"]
    if date_formats.any (fun fmt => env.strptimeOk (strTrim user_input) fmt) then none
    else some (false, some "Please enter a valid date (e.g., DD-MM-YYYY).")
  else none

/-- The custom-regex gate of `validate_input` (lines 296-301): a compile
error (`re.error`) is caught and the gate skipped. -/
def customRegexGate (env : Env) (step : Step) (user_input : String) :
    Bool × Option String :=
  if step.validation_regex ≠ "" then
    match env.rxc step.validation_regex user_input with
    | .ok false => (false, some (pyOr step.validation_error "Invalid format."))
    | _ => (true, none)
  else (true, none)

/-- `FlowEngine.validate_input` (lines 229-303). -/
def validateInput (env : Env) (step : Step) (user_input button_payload : String) :
    Bool × Option String :=
  if step.input_type = "Image" ∨ step.input_type = "File" then
    let val := strTrim user_input
    if val ≠ "" ∧ (strStarts val "/" ∨ strContains val "files/" ∨ strStarts val "http") then
      (true, none)
    else (false, some ("Please upload an " ++ strLower step.input_type ++ " to continue."))
  else if step.input_type = "Button" then
    if button_payload ≠ "" ∨ user_input ≠ "" then (true, none)
    else (false, some "Please tap a button to continue.")
  else if step.input_type = "WhatsApp Flow" then
    if user_input ≠ "" then (true, none) else (false, some "Please complete the form.")
  else if step.input_type = "None" then (true, none)
  else if user_input = "" then (false, some "Please provide a response.")
  else
    match typedCheck env step user_input with
    | some fail => fail
    | none => customRegexGate env step user_input

/-! ## Step routing -/

/-- `sorted(steps, key=lambda x: x.idx)` (a stable sort by index). -/
def sortSteps (steps : List Step) : List Step :=
  steps.insertionSort (fun a b => a.idx ≤ b.idx)

/-- The positional-successor scan shared by `get_next_step` (lines 457-462)
and the media fallback of `process_input` (lines 175-179): the name of the
step after the first occurrence of `name`, `""` if there is none. -/
def nextByOrder (name : String) : List Step → String
  | s :: t :: rest => if s.step_name = name then t.step_name else nextByOrder name (t :: rest)
  | _ => ""

/-- The name-resolution chain of `FlowEngine.get_next_step` (lines 441-462):
conditional map (with `default` fallback), else explicit `next_step`, else
positional order.  `""` means nothing resolved (Python `None`). -/
def resolvedName (current : Step) (all_steps : List Step)
    (user_input button_payload : String) : String :=
  let n1 : String :=
    if current.conditional_next ≠ [] then
      let clean_input := strLower (strTrim user_input)
      let response_key := if button_payload ≠ "" then button_payload else clean_input
      pyOr (optS (alookup current.conditional_next response_key))
        (optS (alookup current.conditional_next "default"))
    else ""
  let n2 : String := if n1 = "" ∧ current.next_step ≠ "" then current.next_step else n1
  if n2 = "" then nextByOrder current.step_name (sortSteps all_steps) else n2

/-- `FlowEngine.get_next_step` (lines 439-468). -/
def getNextStep (current : Step) (all_steps : List Step)
    (user_input button_payload : String) : Option Step :=
  let n := resolvedName current all_steps user_input button_payload
  if n ≠ "" then all_steps.find? (fun s => s.step_name = n) else none

/-- The Router arm of `silent_route` (line 424): match the lower-cased
stringified script result against `conditional_next`, falling back to
`default`, falling back to `else_next_step`. -/
def routerNextPath (step : Step) (logic_result : PyVal) : String :=
  pyOr (pyOr (optS (alookup step.conditional_next (strLower logic_result.pyStr)))
      (optS (alookup step.conditional_next "default")))
    step.else_next_step

/-! ## Flow completion -/

/-- `FlowEngine.complete_flow` (lines 535-564).  The completion actions are
external side effects (each guarded by its own try/except in the source) and
are modelled as no-ops; nothing inside the try block can fault in the model,
so the outer fallback branch is unreachable here. -/
def completeFlow (now : Int) (flow : ChatFlow) (st : St) : String × St :=
  let st := saveSession now
    { st with sess := { st.sess with status := .Completed, completed_at := some now } }
  let session_data := st.sess.session_data
  let completion_msg := pyOr flow.completion_message "Thank you! Your request has been submitted."
  (substituteVars session_data completion_msg, st)

/-- Flow lookup, `frappe.get_doc("WhatsApp Chatbot Flow", name)`: raises when
the document does not exist. -/
def getFlow (env : Env) (name : String) (st : St) : Except (EngineErr × St) ChatFlow :=
  match alookup env.flows name with
  | some f => .ok f
  | none => .error (.docNotFound name, st)

/-! ## Silent routing -/

/-- `FlowEngine.silent_route` (lines 359-437), with fuel for the unbounded
recursion (fuel exhaustion plays the role of `RecursionError`). -/
def silentRoute (env : Env) (now : Int) :
    Nat → String → List Step → St → Except (EngineErr × St) (RouteResult × St)
  | 0, _, _, st => .error (.recursionLimit, st)
  | Nat.succ fuel, step_name, all_steps, st =>
    match all_steps.find? (fun s => s.step_name = step_name) with
    | Option.none => .ok (.none, st)
    | Option.some step_doc =>
      if step_doc.input_type = "Send Message" then
        let msg := buildStepMessage env step_doc st.sess
        match sendAndLog now msg step_doc.step_name st with
        | .error e => .error e
        | .ok st1 =>
          match getNextStep step_doc all_steps "" "" with
          | Option.some next_step =>
            let st2 := saveSession now
              { st1 with sess := { st1.sess with current_step := next_step.step_name } }
            silentRoute env now fuel next_step.step_name all_steps st2
          | Option.none =>
            match getFlow env st1.sess.current_flow st1 with
            | .error e => .error e
            | .ok flow =>
              let (m, st2) := completeFlow now flow st1
              .ok (.msg m, st2)
      else if step_doc.input_type = "Jump" ∧ step_doc.target_flow ≠ "" then
        let st1 := { st with sess := { st.sess with current_flow := step_doc.target_flow } }
        match getFlow env step_doc.target_flow st1 with
        | .error e => .error e
        | .ok new_flow =>
          match sortSteps new_flow.steps with
          | [] => .ok (.none, st1)
          | first_step :: _ =>
            let st2 := saveSession now
              { st1 with sess := { st1.sess with current_step := first_step.step_name } }
            silentRoute env now fuel first_step.step_name new_flow.steps st2
      else if step_doc.input_type = "Condition" ∨ step_doc.input_type = "Router" then
        let session_data := st.sess.session_data
        let logic_result := env.scriptEval step_doc.response_script session_data
        let next_path : String :=
          if step_doc.input_type = "Condition" then
            if logic_result.truthy then step_doc.next_step else step_doc.else_next_step
          else routerNextPath step_doc logic_result
        if next_path ≠ "" then
          let st1 := saveSession now
            { st with sess := { st.sess with current_step := next_path } }
          silentRoute env now fuel next_path all_steps st1
        else
          match getFlow env st.sess.current_flow st with
          | .error e => .error e
          | .ok flow =>
            let (m, st1) := completeFlow now flow st
            .ok (.msg m, st1)
      else .ok (.step step_doc, st)

/-! ## Processing user input -/

/-- The cancel-keyword list of `process_input` (line 118). -/
def cancelWords (flow : ChatFlow) : List String :=
  (((strSplit flow.cancel_keywords ",").filter (fun w => strTrim w ≠ "")).map
    (fun w => strLower (strTrim w)))

/-- `process_input` lines 181-223: from the routed next step to the returned
message.  `route` is the value of the Python `next_step` variable, which the
media fallback can have turned into a completion string (accessing
`.skip_condition` on a string raises AttributeError). -/
def afterRoute (env : Env) (now : Int) (fuel : Nat) (flow : ChatFlow)
    (route : RouteResult) (st : St) : Except (EngineErr × St) (Option Msg × St) :=
  if route.falsy then
    let (m, st1) := completeFlow now flow st
    .ok (some (.text m), st1)
  else
    match route with
    | .none => .ok (Option.none, st)
    | .msg _ => .error (.attributeError "skip_condition", st)
    | .step next0 =>
      let session_data := st.sess.session_data
      let next1 : Option Step :=
        if next0.skip_condition ≠ "" ∧ env.skipEval next0.skip_condition session_data then
          getNextStep next0 flow.steps "" ""
        else some next0
      match next1 with
      | Option.none =>
        let (m, st1) := completeFlow now flow st
        .ok (some (.text m), st1)
      | Option.some next_step =>
        let st1 := saveSession now
          { st with sess :=
            { st.sess with
                current_step := next_step.step_name
                step_retries := 0
                last_activity := now } }
        if next_step.input_type = "Send Message" ∨ next_step.input_type = "Condition" ∨
            next_step.input_type = "Router" ∨ next_step.input_type = "Jump" then
          match silentRoute env now fuel next_step.step_name flow.steps st1 with
          | .error e => .error e
          | .ok (.step s, st2) => .ok (some (buildStepMessage env s st2.sess), st2)
          | .ok (.msg m, st2) => .ok (some (.text m), st2)
          | .ok (.none, st2) => .ok (Option.none, st2)
        else
          let response := buildStepMessage env next_step st1.sess
          let st2 :=
            match response with
            | .text s => addMessage now "Outgoing" (some s) next_step.step_name st1
            | _ => st1
          let st3 := saveSession now st2
          .ok (some response, st3)

/-- `process_input` lines 167-179: log the incoming message, route, and apply
the Image/File positional fallback. -/
def processAfterInput (env : Env) (now : Int) (fuel : Nat) (flow : ChatFlow)
    (current_step : Step) (user_input button_payload : String) (st : St) :
    Except (EngineErr × St) (Option Msg × St) :=
  let st := addMessage now "Incoming" (some user_input) current_step.step_name st
  match getNextStep current_step flow.steps user_input button_payload with
  | Option.some next => afterRoute env now fuel flow (.step next) st
  | Option.none =>
    if current_step.input_type = "Image" ∨ current_step.input_type = "File" then
      match nextByOrder current_step.step_name (sortSteps flow.steps) with
      | "" => afterRoute env now fuel flow .none st
      | succ =>
        match silentRoute env now fuel succ flow.steps st with
        | .error e => .error e
        | .ok (r, st1) => afterRoute env now fuel flow r st1
    else afterRoute env now fuel flow .none st

/-- The body of the top-level try of `FlowEngine.process_input` (lines
113-223). -/
def processInputCore (env : Env) (now : Int) (fuel : Nat)
    (user_input button_payload : String) (st : St) :
    Except (EngineErr × St) (Option Msg × St) :=
  match alookup env.flows st.sess.current_flow with
  | Option.none => .error (.docNotFound st.sess.current_flow, st)
  | Option.some flow =>
    if flow.cancel_keywords ≠ "" ∧ strLower user_input ∈ cancelWords flow then
      let st1 := saveSession now
        { st with sess := { st.sess with status := .Cancelled, completed_at := some now } }
      .ok (some (.text "Your request has been cancelled."), st1)
    else
      match flow.steps.find? (fun s => s.step_name = st.sess.current_step) with
      | Option.none =>
        let (m, st1) := completeFlow now flow st
        .ok (some (.text m), st1)
      | Option.some current_step =>
        let input_value := if button_payload ≠ "" then button_payload else user_input
        if current_step.input_type ≠ "" ∧ current_step.input_type ≠ "None" then
          match validateInput env current_step user_input button_payload with
          | (true, _) =>
            let st1 :=
              if current_step.store_as ≠ "" then
                saveSession now { st with sess :=
                  { st.sess with
                  session_data := alinsert st.sess.session_data current_step.store_as input_value } }
              else st
            processAfterInput env now fuel flow current_step user_input button_payload st1
          | (false, error) =>
            let retries := st.sess.step_retries + 1
            let maxRetries := if current_step.max_retries = 0 then 3 else current_step.max_retries
            let stR := { st with sess := { st.sess with step_retries := retries } }
            if current_step.retry_on_invalid ∧ retries < maxRetries then
              let st1 := saveSession now stR
              .ok (some (.text (pyOr (pyOr (optS error) current_step.validation_error)
                "Invalid input. Please try again.")), st1)
            else
              let st1 := saveSession now
                { stR with sess := { stR.sess with status := .Cancelled, completed_at := some now } }
              .ok (some (.text "Too many invalid attempts. Please start again."), st1)
        else
          processAfterInput env now fuel flow current_step user_input button_payload st

/-- `FlowEngine.process_input` (lines 111-227): the try body with its
top-level catch-all turning any fault into the generic retry-later message,
the session staying as last persisted. -/
def processInput (env : Env) (now : Int) (fuel : Nat)
    (user_input button_payload : String) (st : St) : Option Msg × St :=
  match processInputCore env now fuel user_input button_payload st with
  | .ok r => r
  | .error (_, st1) => (some (.text "An error occurred. Please try again later."), st1)

/-! ## Session lifecycle manager (`chatbot/session_manager.py`) -/

/-- `SessionManager.get_timeout` (lines 13-21): the configured
`session_timeout_minutes`, defaulting to 30 when the settings singleton is
absent, unreadable, or the field is unset/zero. -/
def getTimeout (settings : Option Nat) : Nat :=
  match settings with
  | some t => if t = 0 then 30 else t
  | none => 30

/-- `frappe.get_doc("WhatsApp Chatbot Session", name)` over the session
table. -/
def dbFind (db : List Session) (nm : String) : Option Session :=
  db.find? (fun s => s.name = nm)

/-- Persist a session document back into the table (replace the record with
this name). -/
def dbUpdate (nm : String) (s' : Session) : List Session → List Session
  | [] => []
  | s :: rest => if s.name = nm then s' :: rest else s :: dbUpdate nm s' rest

/-- One iteration of the expiry loop of `expire_old_sessions` (lines 62-72):
load the session, mark it Timeout, stamp completion, save, and send the
timeout message of its current flow when one is defined.  The `Bool` result
records whether an exception escaped this iteration (a missing session or
flow document), which aborts the whole sweep because the loop body has no
try/except of its own. -/
def expireStep (flows : List (String × ChatFlow)) (now : Int) (nm : String)
    (db : List Session) (ob : List String) : (List Session × List String) × Bool :=
  match dbFind db nm with
  | Option.none => ((db, ob), true)
  | Option.some s =>
    let s1 := WhatsAppChatbotSession.before_save now
      { s with status := .Timeout, completed_at := some now }
    let db1 := dbUpdate nm s1 db
    if s1.current_flow = "" then ((db1, ob), false)
    else
      match alookup flows s1.current_flow with
      | Option.none => ((db1, ob), true)
      | Option.some flow =>
        if flow.timeout_message ≠ "" then ((db1, ob ++ [flow.timeout_message]), false)
        else ((db1, ob), false)

/-- The `for session_name in expired` loop, stopping at the first fault
(the single surrounding try/except catches it and abandons the sweep). -/
def expireLoop (flows : List (String × ChatFlow)) (now : Int) :
    List String → List Session → List String → List Session × List String
  | [], db, ob => (db, ob)
  | nm :: rest, db, ob =>
    match expireStep flows now nm db ob with
    | ((db1, ob1), true) => (db1, ob1)
    | ((db1, ob1), false) => expireLoop flows now rest db1 ob1

/-- `SessionManager.expire_old_sessions` (lines 48-78). -/
def expireOldSessions (flows : List (String × ChatFlow)) (timeout_minutes now : Int)
    (db : List Session) (ob : List String) : List Session × List String :=
  let timeout_threshold := now - timeout_minutes
  let expired := (db.filter
    (fun s => decide (s.status = .Active ∧ s.last_activity < timeout_threshold))).map
    (fun s => s.name)
  expireLoop flows now expired db ob

/-- `SessionManager.get_active_session` (lines 23-46): run the opportunistic
expiry sweep, then look up the Active session of this contact. -/
def getActiveSession (flows : List (String × ChatFlow)) (timeout_minutes now : Int)
    (phone account : String) (db : List Session) (ob : List String) :
    Option Session × (List Session × List String) :=
  let (db1, ob1) := expireOldSessions flows timeout_minutes now db ob
  (db1.find? (fun s =>
      decide (s.phone_number = phone ∧ s.whatsapp_account = account ∧ s.status = .Active)),
    (db1, ob1))

/-! ## Authoring-time step validation (`doctype/whatsapp_flow_step/whatsapp_flow_step.py`) -/

/-- The WhatsApp Flow Step document fields read by the validation hooks. -/
structure FlowStepDoc where
  step_name : String
  input_type : String
  message : String
  response_script : String
  next_step : String
  else_next_step : String
deriving DecidableEq

/-- What the validate hook can raise: `frappe.throw` with a message, or a
Python `AttributeError` from a call to an undefined method. -/
inductive ValidateError
  | attributeError (attr : String)
  | thrown (msg : String)
deriving DecidableEq

/-- The methods that class `WhatsAppFlowStep` defines in
whatsapp_flow_step.py (besides the framework `Document` base, which defines
no app-specific method). -/
def whatsAppFlowStepMethods : List String :=
  ["validate", "validate_router_setup", "check_target_is_not_router"]

/-- `WhatsAppFlowStep.check_target_is_not_router` (lines 34-46);
`getStepType` models `frappe.db.get_value` on (step_name, parent). -/
def check_target_is_not_router (getStepType : String → Option String)
    (doc : FlowStepDoc) (target field_label : String) : Except ValidateError Unit :=
  if getStepType target = some "Router" then
    .error (.thrown ("Logic Error: Router step \x27" ++ doc.step_name ++
      "\x27 cannot point to another Router (\x27" ++ target ++ "\x27). The " ++
      field_label ++ " must be a visible step (Text, Button, etc.) to prevent infinite loops."))
  else .ok ()

/-- `WhatsAppFlowStep.validate_router_setup` (lines 13-32): the implemented
Router authoring checks. -/
def validate_router_setup (getStepType : String → Option String)
    (doc : FlowStepDoc) : Except ValidateError Unit :=
  if doc.response_script = "" then
    .error (.thrown ("Step \x27" ++ doc.step_name ++
      "\x27 is a Router and requires a \x27Response Script\x27 to decide the path."))
  else if !(strContains doc.response_script "response") then
    .error (.thrown
      "Router scripts usually need to set the \x27response\x27 variable to True or False.")
  else if doc.else_next_step = "" then
    .error (.thrown ("Step \x27" ++ doc.step_name ++
      "\x27 is a Router and requires an \x27Else Next Step\x27 for when the script returns False."))
  else
    match (if doc.next_step ≠ "" then
        check_target_is_not_router getStepType doc doc.next_step "Next Step"
      else .ok ()) with
    | .error e => .error e
    | .ok _ =>
      if doc.else_next_step ≠ "" then
        check_target_is_not_router getStepType doc doc.else_next_step "Else Next Step"
      else .ok ()

/-- `WhatsAppFlowStep.validate` (lines 6-11).  For a Router step the source
calls `self.validate_router_logic()`: Python attribute lookup searches the
instance, class `WhatsAppFlowStep` and its bases, and no such method exists
anywhere in the app (the implemented Router checks are named
`validate_router_setup`), so the lookup raises AttributeError.  The `then`
arm of the membership test is the would-be dispatch and is unreachable. -/
def WhatsAppFlowStep.validate (doc : FlowStepDoc) : Except ValidateError Unit :=
  if doc.input_type = "Router" then
    if "validate_router_logic" ∈ whatsAppFlowStepMethods then .ok ()
    else .error (.attributeError "validate_router_logic")
  else if doc.message = "" then
    .error (.thrown ("Message is required for visible step: " ++ doc.step_name))
  else .ok ()

/-! ## Concrete fixtures for witnesses and counterexamples -/

/-- A step record with every field empty; fixtures override what they use. -/
def step0 : Step where
  step_name := ""
  idx := 0
  input_type := ""
  message := ""
  message_type := ""
  template := ""
  options := ""
  buttons := []
  validation_regex := ""
  validation_error := ""
  max_retries := 0
  retry_on_invalid := false
  next_step := ""
  else_next_step := ""
  conditional_next := []
  skip_condition := ""
  store_as := ""
  target_flow := ""
  response_script := ""
  whatsapp_flow := ""
  flow_cta := ""
  flow_screen := ""

/-- A plain text-input step, the current step of the fixture session. -/
def textStep : Step :=
  { step0 with step_name := "s1", idx := 1, input_type := "Text", retry_on_invalid := true }

/-- The fixture flow. -/
def flowT : ChatFlow where
  steps := [textStep]
  cancel_keywords := ""
  initial_message := ""
  completion_message := ""
  timeout_message := ""
  on_complete_action := ""

/-- The fixture environment: one flow, a trivially accepting constant-regex
matcher, a user-regex matcher for which only the pattern "(" is malformed
(an unbalanced parenthesis raises `re.error`), and inert script oracles. -/
def envTest : Env where
  flows := [("F", flowT)]
  rxv := fun _ _ => true
  rxc := fun pat _ => if pat = "(" then .error () else .ok true
  strptimeOk := fun _ _ => false
  scriptEval := fun _ _ => .vNone
  skipEval := fun _ _ => false

/-- The fixture session, Active inside flow "F" at step "s1". -/
def sess0 : Session where
  name := "S1"
  phone_number := "15550001111"
  whatsapp_account := "acct"
  status := .Active
  current_flow := "F"
  current_step := "s1"
  session_data := []
  step_retries := 0
  last_activity := 0
  completed_at := none
  messages := []

/-- The fixture engine state. -/
def st0 : St where
  sess := sess0
  db := sess0
  outbox := []

/-! ## C10 — before_save refreshes last_activity exactly for Active sessions -/

/-- C10: every save of a session with status Active sets `last_activity` to
the current time via the `before_save` hook, and a save with any other
status leaves the document (in particular `last_activity`) unchanged. -/
theorem c10_before_save_refreshes_last_activity :
    ∀ (now : Int) (s : Session),
      (s.status = .Active →
        WhatsAppChatbotSession.before_save now s = { s with last_activity := now }) ∧
      (s.status ≠ .Active → WhatsAppChatbotSession.before_save now s = s) := by
  intro now s
  constructor
  · intro h
    simp [WhatsAppChatbotSession.before_save, h]
  · intro h
    simp [WhatsAppChatbotSession.before_save, h]

/-- Witness for C10 at a concrete Active and a concrete Timeout session. -/
theorem c10_witness :
    (sess0.status = Status.Active ∧
      WhatsAppChatbotSession.before_save 5 sess0 = { sess0 with last_activity := 5 }) ∧
    ({ sess0 with status := Status.Timeout }.status ≠ Status.Active ∧
      WhatsAppChatbotSession.before_save 5 { sess0 with status := Status.Timeout } =
        { sess0 with status := Status.Timeout }) :=
  ⟨⟨rfl, (c10_before_save_refreshes_last_activity 5 sess0).1 rfl⟩,
    ⟨by decide, (c10_before_save_refreshes_last_activity 5
      { sess0 with status := Status.Timeout }).2 (by decide)⟩⟩

/-! ## C8 — the Router validate hook calls an undefined method -/

/-- C8: for every step document with input_type "Router" the authoring-time
validate hook raises unconditionally, because it calls
`validate_router_logic`, which is not defined on the class; consequently the
implemented checks in `validate_router_setup` are never reached from
`validate` and no Router step passes validation. -/
theorem c8_router_validate_always_raises :
    ∀ (doc : FlowStepDoc), doc.input_type = "Router" →
      WhatsAppFlowStep.validate doc = .error (.attributeError "validate_router_logic") := by
  intro doc h
  simp [WhatsAppFlowStep.validate, h, whatsAppFlowStepMethods]

/-- Witness for C8: a Router step that satisfies every implemented check of
`validate_router_setup` still fails `validate` with the AttributeError. -/
theorem c8_witness :
    ({ step_name := "r1", input_type := "Router", message := "m",
        response_script := "response = True", next_step := "",
        else_next_step := "e1" : FlowStepDoc }.input_type = "Router" ∧
      validate_router_setup (fun _ => some "Text")
        { step_name := "r1", input_type := "Router", message := "m",
          response_script := "response = True", next_step := "",
          else_next_step := "e1" } = .ok ()) ∧
    WhatsAppFlowStep.validate
      { step_name := "r1", input_type := "Router", message := "m",
        response_script := "response = True", next_step := "",
        else_next_step := "e1" } = .error (.attributeError "validate_router_logic") :=
  ⟨⟨rfl, rfl⟩, c8_router_validate_always_raises _ rfl⟩

/-! ## C7 — the top-level catch of process_input -/

/-- C7: process_input never propagates a fault to its caller: it either
returns the result of its body unchanged, or, if the body faulted anywhere,
returns the single generic retry-later message with the state exactly as
the body last persisted it (no rollback). -/
theorem c7_top_level_catch :
    ∀ (env : Env) (now : Int) (fuel : Nat) (ui bp : String) (st : St),
      (∃ r, processInputCore env now fuel ui bp st = .ok r ∧
        processInput env now fuel ui bp st = r) ∨
      (∃ e st1, processInputCore env now fuel ui bp st = .error (e, st1) ∧
        processInput env now fuel ui bp st =
          (some (.text "An error occurred. Please try again later."), st1)) := by
  intro env now fuel ui bp st
  unfold processInput
  cases h : processInputCore env now fuel ui bp st with
  | ok r => exact Or.inl ⟨r, rfl, rfl⟩
  | error e =>
    obtain ⟨e1, st1⟩ := e
    exact Or.inr ⟨e1, st1, rfl, rfl⟩

/-! ## C5 — Jump with no target flow -/

/-- C5 counterexample: a Jump step with an empty `target_flow` is NOT turned
into None by `silent_route`; the dispatch falls through and returns the step
document itself, so the engine treats it as an interactive step instead of
gracefully completing the flow. -/
theorem c5_counterexample :
    silentRoute envTest 0 5 "j1" [{ step0 with step_name := "j1", input_type := "Jump" }] st0 =
      .ok (.step { step0 with step_name := "j1", input_type := "Jump" }, st0) ∧
    RouteResult.step { step0 with step_name := "j1", input_type := "Jump" } ≠
      RouteResult.none := by
  constructor
  · rfl
  · intro h
    exact RouteResult.noConfusion h

/-- C5 amended: a Jump step with an EMPTY target_flow falls through the
silent-routing dispatch and is returned as if it were an interactive step
(the engine then renders its message and waits for input), with the state
untouched; a Jump step whose target flow exists but has an empty step list
is the case that returns None (after switching the in-memory session to the
target flow, without saving). -/
theorem c5_jump_routing :
    ∀ (env : Env) (now : Int) (fuel : Nat) (name : String) (steps : List Step)
      (st : St) (j : Step),
      steps.find? (fun s => s.step_name = name) = some j →
      j.input_type = "Jump" →
      (j.target_flow = "" →
        silentRoute env now (fuel + 1) name steps st = .ok (.step j, st)) ∧
      (∀ f, j.target_flow ≠ "" → alookup env.flows j.target_flow = some f →
        f.steps = [] →
        silentRoute env now (fuel + 1) name steps st =
          .ok (.none, { st with sess := { st.sess with current_flow := j.target_flow } })) := by
  intro env now fuel name steps st j hfind hit
  constructor
  · intro htf
    simp [silentRoute, hfind, hit, htf, getFlow]
  · intro f htf hflow hsteps
    simp [silentRoute, hfind, hit, htf, getFlow, hflow, hsteps, sortSteps]

/-- Witness for C5 at concrete inputs: the empty-target Jump is returned as
a step, and a Jump to an existing empty flow yields None. -/
theorem c5_witness :
    ([{ step0 with step_name := "j1", input_type := "Jump" }].find?
        (fun s => s.step_name = "j1") =
      some { step0 with step_name := "j1", input_type := "Jump" } ∧
      ({ step0 with step_name := "j1", input_type := "Jump" } : Step).input_type = "Jump") ∧
    silentRoute envTest 0 3 "j1" [{ step0 with step_name := "j1", input_type := "Jump" }] st0 =
      .ok (.step { step0 with step_name := "j1", input_type := "Jump" }, st0) :=
  ⟨⟨rfl, rfl⟩,
    (c5_jump_routing envTest 0 2 "j1" [{ step0 with step_name := "j1", input_type := "Jump" }]
      st0 { step0 with step_name := "j1", input_type := "Jump" } rfl rfl).1 rfl⟩

/-! ## C9 — a malformed custom regex is silently skipped -/

/-- C9: when compiling the custom `validation_regex` raises `re.error`, the
except clause skips the gate, so validation behaves exactly as if the step
had no custom regex at all; the malformed regex can never cause a validation
failure, and every input that passes the type-specific check is accepted. -/
theorem c9_malformed_regex_skipped :
    ∀ (env : Env) (step : Step) (user_input button_payload : String),
      env.rxc step.validation_regex user_input = .error () →
      validateInput env step user_input button_payload =
        validateInput env { step with validation_regex := "" } user_input button_payload := by
  intro env step ui bp herr
  have hgate : customRegexGate env step ui = (true, none) := by
    unfold customRegexGate
    by_cases hvr : step.validation_regex = ""
    · simp [hvr]
    · simp [hvr, herr]
  have hgate2 : customRegexGate env { step with validation_regex := "" } ui = (true, none) := by
    simp [customRegexGate]
  unfold validateInput
  simp only [hgate, hgate2]
  rfl

/-- The step of the C9 witness: a Text step whose custom regex "(" is
malformed. -/
def c9Step : Step :=
  { step0 with step_name := "s1", input_type := "Text", validation_regex := "(" }

/-- Witness for C9: the step with the malformed regex "(" accepts the input
"hello", exactly as the regex-free step does. -/
theorem c9_witness :
    (envTest.rxc c9Step.validation_regex "hello" = .error () ∧
      validateInput envTest c9Step "hello" "" = (true, none)) ∧
    validateInput envTest c9Step "hello" "" =
      validateInput envTest { c9Step with validation_regex := "" } "hello" "" :=
  ⟨⟨rfl, by decide⟩, c9_malformed_regex_skipped envTest c9Step "hello" "" rfl⟩

/-! ## C3 — router normalization is one-sided, not key-case-insensitive -/

/-- The step of the C3 counterexample: a conditional map with an upper-case
key. -/
def c3Step : Step :=
  { step0 with
      step_name := "q1"
      idx := 1
      conditional_next := [("VIP", "StepA"), ("default", "StepB")] }

def c3StepA : Step := { step0 with step_name := "StepA", idx := 2 }

def c3StepB : Step := { step0 with step_name := "StepB", idx := 3 }

def c3Steps : List Step := [c3Step, c3StepA, c3StepB]

/-- C3 counterexample: the mapping contains the key "VIP", the raw text IS
"VIP", yet the lookup misses (the input is lower-cased to "vip" while keys
are matched exactly) and routing falls to the default branch StepB.  Under
the claimed case-insensitive key matching it would have routed to StepA. -/
theorem c3_counterexample :
    alookup c3Step.conditional_next "VIP" = some "StepA" ∧
    getNextStep c3Step c3Steps "VIP" "" = some c3StepB := ⟨by decide, by decide⟩

/-- C3 amended: normalization lower-cases only the response: the trimmed raw
text is lower-cased (so routing depends on text input only through its
trimmed lower-cased form), a non-empty button payload always wins over the
raw text and is used verbatim (not lower-cased), and a Router script result
enters the lookup through its lower-cased string form; the lookup against
the `conditional_next` keys is exact (case-sensitive), so matching is
case-insensitive only when the mapping keys are themselves lower-case. -/
theorem c3_normalization_amended :
    (∀ (cs : Step) (steps : List Step) (ui1 ui2 bp : String), bp ≠ "" →
      getNextStep cs steps ui1 bp = getNextStep cs steps ui2 bp) ∧
    (∀ (cs : Step) (steps : List Step) (ui1 ui2 : String),
      strLower (strTrim ui1) = strLower (strTrim ui2) →
      getNextStep cs steps ui1 "" = getNextStep cs steps ui2 "") ∧
    (∀ (step : Step) (v1 v2 : PyVal), strLower v1.pyStr = strLower v2.pyStr →
      routerNextPath step v1 = routerNextPath step v2) := by
  refine ⟨?_, ?_, ?_⟩
  · intro cs steps ui1 ui2 bp hbp
    simp [getNextStep, resolvedName, hbp]
  · intro cs steps ui1 ui2 h
    simp [getNextStep, resolvedName, h]
  · intro step v1 v2 h
    simp [routerNextPath, h]

/-- Witness for C3: with the non-empty payload "BP" present, the raw texts
"Alpha" and "Beta" route identically (the payload wins, text is ignored). -/
theorem c3_witness :
    (("BP" : String) ≠ "") ∧
    getNextStep c3Step c3Steps "Alpha" "BP" = getNextStep c3Step c3Steps "Beta" "BP" :=
  ⟨by decide, c3_normalization_amended.1 c3Step c3Steps "Alpha" "Beta" "BP" (by decide)⟩

/-! ## C2 — step routing priority and the dangling-name case -/

/-- The step of the C2 counterexample: its conditional map resolves to a
name that belongs to no step of the flow. -/
def c2Step : Step :=
  { step0 with step_name := "q2", idx := 1, conditional_next := [("x", "ghost")] }

/-- C2 counterexample: for input "x" the conditional mapping resolves the
name "ghost", yet `get_next_step` returns None because no step of the list
bears that name — so None is NOT returned exactly when none of the three
mechanisms resolves. -/
theorem c2_counterexample :
    resolvedName c2Step [c2Step] "x" "" = "ghost" ∧
    getNextStep c2Step [c2Step] "x" "" = Option.none := ⟨by decide, by decide⟩

/-- C2 amended: `get_next_step` resolves a step NAME in the claimed priority
order — conditional map (normalized response, `default` fallback), else the
explicit `next_step` pointer, else the positional successor (`resolvedName`)
— and then returns the first step of the flow list bearing that name; it
returns None exactly when no name resolves OR the resolved name names no
step in the list (both treated as flow completion by the engine). -/
theorem c2_router_resolution :
    ∀ (cs : Step) (steps : List Step) (ui bp : String),
      (getNextStep cs steps ui bp =
        if resolvedName cs steps ui bp ≠ "" then
          steps.find? (fun s => s.step_name = resolvedName cs steps ui bp)
        else Option.none) ∧
      (getNextStep cs steps ui bp = Option.none ↔
        (resolvedName cs steps ui bp = "" ∨
          ∀ s ∈ steps, s.step_name ≠ resolvedName cs steps ui bp)) := by
  intro cs steps ui bp
  refine ⟨rfl, ?_⟩
  by_cases h : resolvedName cs steps ui bp = ""
  · simp [getNextStep, h]
  · simp [getNextStep, h, List.find?_eq_none]

/-- Witness for C2 at the counterexample input: the characterization holds
with everything evaluated. -/
theorem c2_witness :
    getNextStep c2Step [c2Step] "x" "" =
      (if resolvedName c2Step [c2Step] "x" "" ≠ "" then
        [c2Step].find? (fun s => s.step_name = resolvedName c2Step [c2Step] "x" "")
      else Option.none) :=
  (c2_router_resolution c2Step [c2Step] "x" "").1

/-! ## C1 — the retry cap cancels on the n-th consecutive failure -/

/-- C1: for a step requiring input, with retry_on_invalid set and
max_retries n (3 when the field is unset), the k-th consecutive invalid
input — the engine enters it with step_retries = k-1 and increments — while
k < n persists the incremented counter and returns the validation error (or
the custom error, or the stock fallback), and as soon as k reaches n marks
the session Cancelled, stamps completion and returns the too-many-attempts
message: cancellation happens on the n-th consecutive failure, not the
(n+1)-th. -/
theorem c1_retry_cap :
    ∀ (env : Env) (now : Int) (fuel : Nat) (ui bp : String) (st : St)
      (flow : ChatFlow) (cs : Step) (e : Option String),
      alookup env.flows st.sess.current_flow = some flow →
      ¬(flow.cancel_keywords ≠ "" ∧ strLower ui ∈ cancelWords flow) →
      flow.steps.find? (fun s => s.step_name = st.sess.current_step) = some cs →
      cs.input_type ≠ "" → cs.input_type ≠ "None" →
      validateInput env cs ui bp = (false, e) →
      cs.retry_on_invalid = true →
      (st.sess.step_retries + 1 < (if cs.max_retries = 0 then 3 else cs.max_retries) →
        processInput env now fuel ui bp st =
          (some (.text (pyOr (pyOr (optS e) cs.validation_error)
              "Invalid input. Please try again.")),
            saveSession now { st with sess :=
              { st.sess with step_retries := st.sess.step_retries + 1 } })) ∧
      ((if cs.max_retries = 0 then 3 else cs.max_retries) ≤ st.sess.step_retries + 1 →
        processInput env now fuel ui bp st =
          (some (.text "Too many invalid attempts. Please start again."),
            saveSession now { st with sess :=
              { st.sess with
                  step_retries := st.sess.step_retries + 1
                  status := .Cancelled
                  completed_at := some now } })) := by
  intro env now fuel ui bp st flow cs e hflow hcancel hfind hit1 hit2 hval hroi
  constructor
  · intro hk
    unfold processInput processInputCore
    simp only [hflow, hfind, hval]
    rw [if_neg hcancel]
    rw [if_pos (show cs.input_type ≠ "" ∧ cs.input_type ≠ "None" from ⟨hit1, hit2⟩)]
    rw [if_pos (show (cs.retry_on_invalid = true) ∧
      st.sess.step_retries + 1 < (if cs.max_retries = 0 then 3 else cs.max_retries) from
      ⟨hroi, hk⟩)]
  · intro hk
    unfold processInput processInputCore
    simp only [hflow, hfind, hval]
    rw [if_neg hcancel]
    rw [if_pos (show cs.input_type ≠ "" ∧ cs.input_type ≠ "None" from ⟨hit1, hit2⟩)]
    rw [if_neg (show ¬((cs.retry_on_invalid = true) ∧
      st.sess.step_retries + 1 < (if cs.max_retries = 0 then 3 else cs.max_retries)) from
      fun hcon => absurd hcon.2 (by omega))]

/-- Witness for C1 at concrete inputs: with max_retries unset (so n = 3) and
an empty text input (invalid for a Text step), the first failure (entering
with step_retries = 0) returns the validation error and persists the
counter at 1, and the third consecutive failure (entering with
step_retries = 2) cancels the session. -/
theorem c1_witness :
    (alookup envTest.flows st0.sess.current_flow = some flowT ∧
      validateInput envTest textStep "" "" = (false, some "Please provide a response.") ∧
      textStep.retry_on_invalid = true ∧
      st0.sess.step_retries + 1 < 3) ∧
    processInput envTest 7 5 "" "" st0 =
      (some (.text "Please provide a response."),
        saveSession 7 { st0 with sess := { st0.sess with step_retries := 1 } }) ∧
    processInput envTest 7 5 "" "" { st0 with
        sess := { st0.sess with step_retries := 2 }
        db := { st0.sess with step_retries := 2 } } =
      (some (.text "Too many invalid attempts. Please start again."),
        saveSession 7 { st0 with sess :=
          { st0.sess with step_retries := 3, status := .Cancelled, completed_at := some 7 } }) :=
  ⟨⟨by decide, by decide, rfl, by decide⟩,
    (c1_retry_cap envTest 7 5 "" "" st0 flowT textStep
      (some "Please provide a response.") (by decide) (by decide) (by decide)
      (by decide) (by decide) (by decide) rfl).1 (by decide),
    (c1_retry_cap envTest 7 5 "" "" { st0 with
        sess := { st0.sess with step_retries := 2 }
        db := { st0.sess with step_retries := 2 } } flowT textStep
      (some "Please provide a response.") (by decide) (by decide) (by decide)
      (by decide) (by decide) (by decide) rfl).2 (by decide)⟩

/-! ## C4 — variable substitution and absent keys -/

/-- `occursIn` is exactly substring occurrence. -/
theorem occursIn_iff (pat : List Char) :
    ∀ (s : List Char), occursIn pat s = true ↔ ∃ l r, s = l ++ pat ++ r := by
  intro s
  induction s with
  | nil =>
    simp only [occursIn, List.isEmpty_iff]
    constructor
    · intro h
      exact ⟨[], [], by simp [h]⟩
    · rintro ⟨l, r, h⟩
      have := h.symm
      simp only [List.append_eq_nil] at this
      exact this.1.2
  | cons c rest ih =>
    simp only [occursIn, Bool.or_eq_true, List.isPrefixOf_iff_prefix, ih]
    constructor
    · rintro (⟨t, ht⟩ | ⟨l, r, hr⟩)
      · exact ⟨[], t, by simp [ht.symm]⟩
      · exact ⟨c :: l, r, by simp [hr]⟩
    · rintro ⟨l, r, h⟩
      cases l with
      | nil =>
        left
        exact ⟨r, by simpa using h.symm⟩
      | cons a l' =>
        right
        simp only [List.cons_append, List.cons.injEq] at h
        exact ⟨l', r, h.2⟩

/-- If the pattern does not occur in the string, the replacement scan
returns the string unchanged (for any fuel). -/
theorem replaceAllF_of_not_occurs (pat rep : List Char) :
    ∀ (fuel : Nat) (s : List Char), occursIn pat s = false →
      replaceAllF pat rep fuel s = s := by
  intro fuel
  induction fuel with
  | zero => intro s _; rfl
  | succ n ih =>
    intro s h
    match s with
    | [] => rfl
    | c :: rest =>
      have hpair : pat.isPrefixOf (c :: rest) = false ∧ occursIn pat rest = false := by
        simpa [occursIn] using h
      simp [replaceAllF, hpair.1, ih rest hpair.2]

/-- `strReplace` is the identity when the pattern does not occur. -/
theorem strReplace_of_not_occurs (s pat rep : String)
    (h : occursIn pat.data s.data = false) : strReplace s pat rep = s := by
  unfold strReplace replaceAll
  rw [replaceAllF_of_not_occurs pat.data rep.data s.data.length s.data h]

/-- Splitting at a marker character occurring in neither prefix is
unambiguous. -/
theorem mark_split_unique (m : Char) :
    ∀ (l pre u v : List Char), m ∉ l → m ∉ pre →
      l ++ m :: u = pre ++ m :: v → l = pre ∧ u = v := by
  intro l
  induction l with
  | nil =>
    intro pre u v _ hpre h
    cases pre with
    | nil =>
      simp only [List.nil_append, List.cons.injEq] at h
      exact ⟨rfl, h.2⟩
    | cons a pre' =>
      simp only [List.nil_append, List.cons_append, List.cons.injEq] at h
      exact absurd (h.1 ▸ List.mem_cons_self a pre') hpre
  | cons a l' ih =>
    intro pre u v hl hpre h
    cases pre with
    | nil =>
      simp only [List.cons_append, List.nil_append, List.cons.injEq] at h
      exact absurd (h.1.symm ▸ List.mem_cons_self a l') hl
    | cons b pre' =>
      simp only [List.cons_append, List.cons.injEq] at h
      have hl' : m ∉ l' := fun hm => hl (List.mem_cons_of_mem a hm)
      have hpre' : m ∉ pre' := fun hm => hpre (List.mem_cons_of_mem b hm)
      obtain ⟨h1, h2⟩ := ih pre' u v hl' hpre' h.2
      exact ⟨by rw [h.1, h1], h2⟩

/-- A brace-delimited token of one name never occurs in a string whose only
braces delimit a token of a different name. -/
theorem token_not_occurs (k x pre suf : List Char)
    (hk2 : '}' ∉ k) (hx1 : '{' ∉ x) (hx2 : '}' ∉ x)
    (hpre : '{' ∉ pre) (hsuf : '{' ∉ suf) (hne : k ≠ x) :
    occursIn ('{' :: (k ++ ['}'])) (pre ++ '{' :: (x ++ '}' :: suf)) = false := by
  cases hb : occursIn ('{' :: (k ++ ['}'])) (pre ++ '{' :: (x ++ '}' :: suf)) with
  | false => rfl
  | true =>
    exfalso
    obtain ⟨l, r, heq⟩ := (occursIn_iff _ _).mp hb
    have heq' : pre ++ '{' :: (x ++ '}' :: suf) = l ++ '{' :: (k ++ '}' :: r) := by
      simpa [List.append_assoc] using heq
    have hcnt := congrArg (List.count '{') heq'
    simp only [List.count_append, List.count_cons] at hcnt
    rw [List.count_eq_zero.mpr hpre, List.count_eq_zero.mpr hx1,
      List.count_eq_zero.mpr hsuf] at hcnt
    have hlz : List.count '{' l = 0 := by
      simp at hcnt
      omega
    have hlnot : '{' ∉ l := List.count_eq_zero.mp hlz
    obtain ⟨hpl, hrest⟩ := mark_split_unique '{' pre l _ _ hpre hlnot heq'
    obtain ⟨hxk, _⟩ := mark_split_unique '}' x k suf r hx2 hk2 hrest
    exact hne hxk.symm

/-- No brace character occurs in the string. -/
def braceFree (s : String) : Prop :=
  '{' ∉ s.data ∧ '}' ∉ s.data

instance braceFreeDecidable (s : String) : Decidable (braceFree s) :=
  inferInstanceAs (Decidable (_ ∧ _))

/-- Sequential substitution leaves a template alone whose only braces form
the single token of a name that is not a key of the variable map. -/
theorem substituteVars_absent_token :
    ∀ (vars : List (String × String)) (x pre suf : String),
      (∀ kv ∈ vars, braceFree kv.fst) →
      braceFree x → braceFree pre → braceFree suf →
      x ∉ vars.map Prod.fst →
      substituteVars vars (pre ++ "\x7b" ++ x ++ "\x7d" ++ suf) =
        pre ++ "\x7b" ++ x ++ "\x7d" ++ suf := by
  intro vars
  induction vars with
  | nil => intro x pre suf _ _ _ _ _; rfl
  | cons kv rest ih =>
    intro x pre suf hkeys hx hpre hsuf habs
    have hk : braceFree kv.fst := hkeys kv (List.mem_cons_self _ _)
    have hne : kv.fst ≠ x := by
      intro h
      exact habs (by simp [List.map_cons, h])
    have hnedata : kv.fst.data ≠ x.data := fun h => hne (String.ext h)
    have hpat : ("\x7b" ++ kv.fst ++ "\x7d" : String).data =
        '{' :: (kv.fst.data ++ ['}']) := by
      simp [String.data_append]
    have htgt : (pre ++ "\x7b" ++ x ++ "\x7d" ++ suf : String).data =
        pre.data ++ '{' :: (x.data ++ '}' :: suf.data) := by
      simp [String.data_append]
    have hnoc : occursIn ("\x7b" ++ kv.fst ++ "\x7d" : String).data
        (pre ++ "\x7b" ++ x ++ "\x7d" ++ suf : String).data = false := by
      rw [hpat, htgt]
      exact token_not_occurs kv.fst.data x.data pre.data suf.data
        hk.2 hx.1 hx.2 hpre.1 hsuf.1 hnedata
    have hstep : strReplace (pre ++ "\x7b" ++ x ++ "\x7d" ++ suf)
        ("\x7b" ++ kv.fst ++ "\x7d") kv.snd = pre ++ "\x7b" ++ x ++ "\x7d" ++ suf :=
      strReplace_of_not_occurs _ _ _ hnoc
    have htail : x ∉ rest.map Prod.fst := fun h => habs (by simp [List.map_cons, h])
    calc substituteVars (kv :: rest) (pre ++ "\x7b" ++ x ++ "\x7d" ++ suf)
        = substituteVars rest (strReplace (pre ++ "\x7b" ++ x ++ "\x7d" ++ suf)
            ("\x7b" ++ kv.fst ++ "\x7d") kv.snd) := rfl
      _ = substituteVars rest (pre ++ "\x7b" ++ x ++ "\x7d" ++ suf) := by rw [hstep]
      _ = pre ++ "\x7b" ++ x ++ "\x7d" ++ suf :=
          ih x pre suf (fun kv h => hkeys kv (List.mem_cons_of_mem _ h)) hx hpre hsuf htail

/-- The step and session of the C4 counterexample: the template is the
single token of key "a", whose value itself contains the token of the later
key "b". -/
def c4Step : Step :=
  { step0 with
      step_name := "c4"
      message := "\x7ba\x7d"
      message_type := "Text"
      input_type := "Text" }

def c4Sess : Session :=
  { sess0 with session_data := [("a", "\x7bb\x7d"), ("b", "2")] }

/-- C4 counterexample: rendering the template with the map
a ↦ "\x7bb\x7d", b ↦ "2" yields "2", not the stringified value "\x7bb\x7d"
of the token key "a" — substitution is a sequential fold, so an earlier
substituted value is rewritten again by a later key. -/
theorem c4_counterexample :
    buildStepMessage envTest c4Step c4Sess = .text "2" ∧
    ("2" : String) ≠ "\x7bb\x7d" := by
  constructor
  · rfl
  · intro h
    exact absurd (congrArg String.data h) (by decide)

/-- C4 amended: substitution is the sequential fold of `str.replace` over
the variable map in insertion order, so a value substituted for an earlier
key is itself rewritten by later replacements when it contains a later
token; but every token whose name is absent from the map is left as the
literal text, and rendering is idempotent on it: for a plain text step
whose template is exactly `pre{x}suf` with brace-free pre, x, suf and
brace-free map keys, and x not a key, rendering returns the template
unchanged. -/
theorem c4_absent_key_left_literal :
    ∀ (env : Env) (step : Step) (sess : Session) (x pre suf : String),
      step.message_type = "Text" → step.input_type = "Text" →
      step.message = pre ++ "\x7b" ++ x ++ "\x7d" ++ suf →
      (∀ kv ∈ sess.session_data, braceFree kv.fst) →
      braceFree x → braceFree pre → braceFree suf →
      x ∉ sess.session_data.map Prod.fst →
      substituteVars sess.session_data step.message = step.message ∧
      buildStepMessage env step sess = .text step.message := by
  intro env step sess x pre suf hmt hit hmsg hkeys hx hpre hsuf habs
  have hsub : substituteVars sess.session_data step.message = step.message := by
    rw [hmsg]
    exact substituteVars_absent_token sess.session_data x pre suf hkeys hx hpre hsuf habs
  refine ⟨hsub, ?_⟩
  unfold buildStepMessage
  rw [hsub, hmt, hit]
  simp

/-- The step and session of the C4 witness. -/
def c4wStep : Step :=
  { step0 with
      step_name := "c4w"
      message := "Hello \x7bname\x7d!"
      message_type := "Text"
      input_type := "Text" }

def c4wSess : Session :=
  { sess0 with session_data := [("b", "2")] }

/-- Witness for C4: with the map b ↦ "2" and the absent key "name", the
template "Hello \x7bname\x7d!" renders unchanged. -/
theorem c4_witness :
    (c4wStep.message = "Hello " ++ "\x7b" ++ "name" ++ "\x7d" ++ "!" ∧
      "name" ∉ c4wSess.session_data.map Prod.fst) ∧
    substituteVars c4wSess.session_data c4wStep.message = c4wStep.message ∧
    buildStepMessage envTest c4wStep c4wSess = .text c4wStep.message :=
  ⟨⟨by decide, by decide⟩,
    c4_absent_key_left_literal envTest c4wStep c4wSess "name" "Hello " "!"
      rfl rfl (by decide) (by decide) (by decide) (by decide) (by decide) (by decide)⟩

/-! ## C6 — timeout on lookup -/

/-- A found session bears the looked-up name. -/
theorem dbFind_name (db : List Session) (nm : String) (s : Session)
    (h : dbFind db nm = some s) : s.name = nm := by
  have := List.find?_some h
  simpa using this

/-- A found session is in the table. -/
theorem dbFind_mem (db : List Session) (nm : String) (s : Session)
    (h : dbFind db nm = some s) : s ∈ db :=
  List.mem_of_find?_eq_some h

/-- Updating a present name makes lookup return the new record, provided
the new record keeps the name. -/
theorem dbFind_update_self (nm : String) (s' : Session) (hkeep : s'.name = nm) :
    ∀ (db : List Session), (dbFind db nm).isSome →
      dbFind (dbUpdate nm s' db) nm = some s' := by
  intro db
  induction db with
  | nil => intro h; simp [dbFind] at h
  | cons s rest ih =>
    intro h
    by_cases hs : s.name = nm
    · unfold dbFind dbUpdate
      rw [if_pos hs]
      rw [List.find?_cons_of_pos _ (by simp [hkeep])]
    · unfold dbFind at h
      rw [List.find?_cons_of_neg _ (by simp [hs])] at h
      unfold dbFind dbUpdate
      rw [if_neg hs]
      rw [List.find?_cons_of_neg _ (by simp [hs])]
      exact ih h

/-- Updating one name leaves lookups of other names unchanged, provided the
new record keeps the updated name. -/
theorem dbFind_update_other (nm nm' : String) (s' : Session) (hkeep : s'.name = nm)
    (hne : nm' ≠ nm) :
    ∀ (db : List Session), dbFind (dbUpdate nm s' db) nm' = dbFind db nm' := by
  intro db
  induction db with
  | nil => rfl
  | cons s rest ih =>
    by_cases hs : s.name = nm
    · unfold dbFind dbUpdate
      rw [if_pos hs]
      rw [List.find?_cons_of_neg _ (by simp [hkeep]; exact fun h => hne h.symm)]
      rw [List.find?_cons_of_neg _ (by simp [hs]; exact fun h => hne h.symm)]
    · unfold dbFind dbUpdate
      rw [if_neg hs]
      by_cases h2 : s.name = nm'
      · rw [List.find?_cons_of_pos _ (by simp [h2]), List.find?_cons_of_pos _ (by simp [h2])]
      · rw [List.find?_cons_of_neg _ (by simp [h2]), List.find?_cons_of_neg _ (by simp [h2])]
        exact ih

/-- Updating a name with a record keeping that name preserves the name
column of the table. -/
theorem dbUpdate_map_name (nm : String) (s' : Session) (hkeep : s'.name = nm) :
    ∀ (db : List Session), (dbUpdate nm s' db).map Session.name = db.map Session.name := by
  intro db
  induction db with
  | nil => rfl
  | cons s rest ih =>
    by_cases hs : s.name = nm
    · simp [dbUpdate, hs, hkeep, List.map_cons]
    · simp [dbUpdate, hs, List.map_cons, ih]

/-- In a table with distinct names, lookup of the name of a member returns
that member. -/
theorem dbFind_of_mem_nodup :
    ∀ (db : List Session), (db.map Session.name).Nodup →
      ∀ t ∈ db, dbFind db t.name = some t := by
  intro db
  induction db with
  | nil => intro _ t h; simp at h
  | cons s rest ih =>
    intro hnd t ht
    simp only [List.map_cons, List.nodup_cons] at hnd
    rcases List.mem_cons.mp ht with rfl | hmem
    · unfold dbFind
      rw [List.find?_cons_of_pos _ (by simp)]
    · have hne : s.name ≠ t.name := by
        intro h
        exact hnd.1 (h ▸ List.mem_map_of_mem Session.name hmem)
      unfold dbFind
      rw [List.find?_cons_of_neg _ (by simp [hne])]
      exact ih hnd.2 t hmem

/-- Marking a non-Active status leaves `before_save` inert. -/
theorem before_save_timeout (now : Int) (s : Session) :
    WhatsAppChatbotSession.before_save now
      { s with status := Status.Timeout, completed_at := some now } =
    { s with status := Status.Timeout, completed_at := some now } := by
  simp [WhatsAppChatbotSession.before_save]

/-- Evaluation of one expiry iteration once the session is found: the
`before_save` hook is inert on the freshly marked (non-Active) record. -/
theorem expireStep_found (flows : List (String × ChatFlow)) (now : Int) (nm : String)
    (db : List Session) (ob : List String) (s : Session)
    (hfound : dbFind db nm = some s) :
    expireStep flows now nm db ob =
      (if s.current_flow = "" then
        ((dbUpdate nm { s with status := Status.Timeout, completed_at := some now } db,
          ob), false)
      else
        match alookup flows s.current_flow with
        | Option.none =>
          ((dbUpdate nm { s with status := Status.Timeout, completed_at := some now } db,
            ob), true)
        | Option.some flow =>
          if flow.timeout_message ≠ "" then
            ((dbUpdate nm { s with status := Status.Timeout, completed_at := some now } db,
              ob ++ [flow.timeout_message]), false)
          else
            ((dbUpdate nm { s with status := Status.Timeout, completed_at := some now } db,
              ob), false)) := by
  unfold expireStep
  rw [hfound]
  rfl

/-- Specification of the expiry loop: when every listed name is present and
has a resolvable (or absent) flow reference, no iteration aborts: each
listed session ends marked Timeout with completion stamped, its timeout
message (when its flow defines one) is emitted, records of other names are
untouched, the name column is preserved and the outbox only grows. -/
theorem expireLoop_spec (flows : List (String × ChatFlow)) (now : Int) :
    ∀ (names : List String) (db : List Session) (ob : List String),
      names.Nodup →
      (∀ nm ∈ names, ∃ s, dbFind db nm = some s ∧
        (s.current_flow = "" ∨ (alookup flows s.current_flow).isSome)) →
      (∀ nm ∈ names, ∃ s, dbFind db nm = some s ∧
        dbFind (expireLoop flows now names db ob).1 nm =
          some { s with status := Status.Timeout, completed_at := some now } ∧
        (∀ f, s.current_flow ≠ "" → alookup flows s.current_flow = some f →
          f.timeout_message ≠ "" →
          f.timeout_message ∈ (expireLoop flows now names db ob).2)) ∧
      (∀ nm, nm ∉ names →
        dbFind (expireLoop flows now names db ob).1 nm = dbFind db nm) ∧
      (∀ m ∈ ob, m ∈ (expireLoop flows now names db ob).2) ∧
      (expireLoop flows now names db ob).1.map Session.name = db.map Session.name := by
  intro names
  induction names with
  | nil =>
    intro db ob _ _
    exact ⟨by simp, fun nm _ => rfl, fun m hm => hm, rfl⟩
  | cons nm rest ih =>
    intro db ob hnd hall
    obtain ⟨s, hfound, hflowcond⟩ := hall nm (List.mem_cons_self _ _)
    have hname : ({ s with status := Status.Timeout, completed_at := some now } :
      Session).name = nm := dbFind_name db nm s hfound
    obtain ⟨hnotin, hndrest⟩ := List.nodup_cons.mp hnd
    have hstep : ∃ ob', expireStep flows now nm db ob =
        ((dbUpdate nm { s with status := Status.Timeout, completed_at := some now } db,
          ob'), false) ∧
        (∀ m ∈ ob, m ∈ ob') ∧
        (∀ f, s.current_flow ≠ "" → alookup flows s.current_flow = some f →
          f.timeout_message ≠ "" → f.timeout_message ∈ ob') := by
      by_cases hscf : s.current_flow = ""
      · refine ⟨ob, ?_, fun m hm => hm, fun f hne _ _ => absurd hscf hne⟩
        rw [expireStep_found flows now nm db ob s hfound]
        simp [hscf]
      · have hsome : (alookup flows s.current_flow).isSome := hflowcond.resolve_left hscf
        obtain ⟨f0, hf0⟩ := Option.isSome_iff_exists.mp hsome
        by_cases hmsg : f0.timeout_message = ""
        · refine ⟨ob, ?_, fun m hm => hm, fun f hne hfeq hmne => ?_⟩
          · rw [expireStep_found flows now nm db ob s hfound]
            simp [hscf, hf0, hmsg]
          · have : f = f0 := Option.some.inj (hfeq.symm.trans hf0)
            exact absurd (this ▸ hmsg) hmne
        · refine ⟨ob ++ [f0.timeout_message], ?_,
            fun m hm => List.mem_append_left _ hm, fun f hne hfeq hmne => ?_⟩
          · rw [expireStep_found flows now nm db ob s hfound]
            simp [hscf, hf0, hmsg]
          · have : f = f0 := Option.some.inj (hfeq.symm.trans hf0)
            rw [this]
            exact List.mem_append_right _ (List.mem_singleton.mpr rfl)
    obtain ⟨ob', hstepeq, hobmono, hobmsg⟩ := hstep
    have hloop : expireLoop flows now (nm :: rest) db ob =
        expireLoop flows now rest
          (dbUpdate nm { s with status := Status.Timeout, completed_at := some now } db)
          ob' := by
      conv_lhs => rw [expireLoop]
      rw [hstepeq]
    have hallrest : ∀ nm' ∈ rest, ∃ s', dbFind
        (dbUpdate nm { s with status := Status.Timeout, completed_at := some now } db)
          nm' = some s' ∧
        (s'.current_flow = "" ∨ (alookup flows s'.current_flow).isSome) := by
      intro nm' hm
      have hne : nm' ≠ nm := fun h => hnotin (h ▸ hm)
      rw [dbFind_update_other nm nm' _ hname hne db]
      exact hall nm' (List.mem_cons_of_mem _ hm)
    obtain ⟨ih1, ih2, ih3, ih4⟩ := ih
      (dbUpdate nm { s with status := Status.Timeout, completed_at := some now } db)
      ob' hndrest hallrest
    rw [hloop]
    refine ⟨?_, ?_, ?_, ?_⟩
    · intro nm0 hm0
      rcases List.mem_cons.mp hm0 with rfl | hm0'
      · refine ⟨s, hfound, ?_, fun f hne hfeq hmne => ih3 _ (hobmsg f hne hfeq hmne)⟩
        rw [ih2 nm0 hnotin]
        exact dbFind_update_self nm0 _ hname db (by rw [hfound]; rfl)
      · obtain ⟨s', hfound', hmark', hmsg'⟩ := ih1 nm0 hm0'
        have hne : nm0 ≠ nm := fun h => hnotin (h ▸ hm0')
        rw [dbFind_update_other nm nm0 _ hname hne db] at hfound'
        exact ⟨s', hfound', hmark', hmsg'⟩
    · intro nm0 hm0
      have hne : nm0 ≠ nm := fun h => hm0 (h ▸ List.mem_cons_self _ _)
      have hnr : nm0 ∉ rest := fun h => hm0 (List.mem_cons_of_mem _ h)
      rw [ih2 nm0 hnr]
      exact dbFind_update_other nm nm0 _ hname hne db
    · intro m hm
      exact ih3 m (hobmono m hm)
    · rw [ih4]
      exact dbUpdate_map_name nm _ hname db

/-- Two table members with the same name coincide when names are distinct. -/
theorem eq_of_name_eq_nodup (db : List Session)
    (hnd : (db.map Session.name).Nodup) (t u : Session)
    (ht : t ∈ db) (hu : u ∈ db) (h : t.name = u.name) : t = u := by
  have h1 := dbFind_of_mem_nodup db hnd t ht
  have h2 := dbFind_of_mem_nodup db hnd u hu
  rw [h] at h1
  exact Option.some.inj (h1.symm.trans h2)

/-- C6 amended: provided the session table has distinct names and every
stale Active session references an existing flow (or none), the very next
active-session lookup marks every such session Timeout with completion
stamped and persisted, emits the timeout message of its current flow when
one is defined, and never returns a stale Active session.  (Without the
flow-reference proviso the single try/except around the sweep loop can
abort it midway, as the counterexample shows.) -/
theorem c6_stale_sessions_reclassified :
    ∀ (flows : List (String × ChatFlow)) (tm now : Int) (phone account : String)
      (db : List Session) (ob : List String),
      (db.map Session.name).Nodup →
      (∀ s ∈ db, s.status = Status.Active → s.last_activity < now - tm →
        s.current_flow = "" ∨ (alookup flows s.current_flow).isSome) →
      (∀ s ∈ db, s.status = Status.Active → s.last_activity < now - tm →
        dbFind (getActiveSession flows tm now phone account db ob).2.1 s.name =
          some { s with status := Status.Timeout, completed_at := some now } ∧
        (∀ f, s.current_flow ≠ "" → alookup flows s.current_flow = some f →
          f.timeout_message ≠ "" →
          f.timeout_message ∈ (getActiveSession flows tm now phone account db ob).2.2)) ∧
      (∀ s1, (getActiveSession flows tm now phone account db ob).1 = some s1 →
        s1.status = Status.Active ∧ ¬(s1.last_activity < now - tm)) := by
  intro flows tm now phone account db ob hnd hflows
  have hga2 : (getActiveSession flows tm now phone account db ob).2 =
      expireLoop flows now
        ((db.filter (fun s =>
          decide (s.status = Status.Active ∧ s.last_activity < now - tm))).map
          Session.name) db ob := rfl
  have hga1 : (getActiveSession flows tm now phone account db ob).1 =
      (expireLoop flows now
        ((db.filter (fun s =>
          decide (s.status = Status.Active ∧ s.last_activity < now - tm))).map
          Session.name) db ob).1.find? (fun s =>
        decide (s.phone_number = phone ∧ s.whatsapp_account = account ∧
          s.status = Status.Active)) := rfl
  have hexp_nodup : ((db.filter (fun s =>
      decide (s.status = Status.Active ∧ s.last_activity < now - tm))).map
      Session.name).Nodup :=
    hnd.sublist ((List.filter_sublist db).map Session.name)
  have hall : ∀ nm ∈ (db.filter (fun s =>
      decide (s.status = Status.Active ∧ s.last_activity < now - tm))).map
      Session.name, ∃ s, dbFind db nm = some s ∧
      (s.current_flow = "" ∨ (alookup flows s.current_flow).isSome) := by
    intro nm hm
    obtain ⟨t, htf, htn⟩ := List.mem_map.mp hm
    obtain ⟨htdb, htp⟩ := List.mem_filter.mp htf
    have hp := of_decide_eq_true htp
    exact ⟨t, htn ▸ dbFind_of_mem_nodup db hnd t htdb,
      hflows t htdb hp.1 hp.2⟩
  obtain ⟨L1, L2, L3, L4⟩ := expireLoop_spec flows now
    ((db.filter (fun s =>
      decide (s.status = Status.Active ∧ s.last_activity < now - tm))).map
      Session.name) db ob hexp_nodup hall
  constructor
  · intro s hs hact hstale
    have hmem : s.name ∈ (db.filter (fun s =>
        decide (s.status = Status.Active ∧ s.last_activity < now - tm))).map
        Session.name :=
      List.mem_map_of_mem Session.name
        (List.mem_filter.mpr ⟨hs, decide_eq_true ⟨hact, hstale⟩⟩)
    obtain ⟨s', hfound', hmark, hmsg⟩ := L1 s.name hmem
    have hss : s' = s :=
      Option.some.inj (hfound'.symm.trans (dbFind_of_mem_nodup db hnd s hs))
    subst hss
    rw [hga2]
    exact ⟨hmark, hmsg⟩
  · intro s1 hfind
    rw [hga1] at hfind
    have hp0 := List.find?_some hfind
    have hp : s1.phone_number = phone ∧ s1.whatsapp_account = account ∧
        s1.status = Status.Active := by
      simpa using hp0
    have hact : s1.status = Status.Active := hp.2.2
    have hmem1 : s1 ∈ (expireLoop flows now
        ((db.filter (fun s =>
          decide (s.status = Status.Active ∧ s.last_activity < now - tm))).map
          Session.name) db ob).1 := List.mem_of_find?_eq_some hfind
    have hnd1 : ((expireLoop flows now
        ((db.filter (fun s =>
          decide (s.status = Status.Active ∧ s.last_activity < now - tm))).map
          Session.name) db ob).1.map Session.name).Nodup := by
      rw [L4]; exact hnd
    have hfind1 := dbFind_of_mem_nodup _ hnd1 s1 hmem1
    have hname_mem : s1.name ∈ db.map Session.name := by
      rw [← L4]
      exact List.mem_map_of_mem Session.name hmem1
    obtain ⟨t, htdb, htn⟩ := List.mem_map.mp hname_mem
    by_cases hstale : t.status = Status.Active ∧ t.last_activity < now - tm
    · exfalso
      have hmem : t.name ∈ (db.filter (fun s =>
          decide (s.status = Status.Active ∧ s.last_activity < now - tm))).map
          Session.name :=
        List.mem_map_of_mem Session.name
          (List.mem_filter.mpr ⟨htdb, decide_eq_true hstale⟩)
      obtain ⟨s', hfound', hmark, _⟩ := L1 t.name hmem
      have hss : s' = t :=
        Option.some.inj (hfound'.symm.trans (dbFind_of_mem_nodup db hnd t htdb))
      rw [hss, htn] at hmark
      have heq : s1 = { t with
          name := s1.name
          status := Status.Timeout
          completed_at := some now } :=
        Option.some.inj (hfind1.symm.trans hmark)
      rw [heq] at hact
      exact Status.noConfusion hact
    · have hnexp : t.name ∉ (db.filter (fun s =>
          decide (s.status = Status.Active ∧ s.last_activity < now - tm))).map
          Session.name := by
        intro hmem
        obtain ⟨u, huf, hun⟩ := List.mem_map.mp hmem
        obtain ⟨hudb, hup⟩ := List.mem_filter.mp huf
        have : u = t := eq_of_name_eq_nodup db hnd u t hudb htdb hun
        exact hstale (this ▸ of_decide_eq_true hup)
      have hpres := L2 t.name hnexp
      rw [htn] at hpres
      have hdbt : dbFind db s1.name = some t := by
        rw [← htn]
        exact dbFind_of_mem_nodup db hnd t htdb
      have : s1 = t := Option.some.inj (hfind1.symm.trans (hpres.trans hdbt))
      subst this
      exact ⟨hact, fun hlt => hstale ⟨hact, hlt⟩⟩

/-- The sessions of the C6 counterexample: both stale Active; the first
(expired earlier in the sweep order) references a flow that does not exist,
the second belongs to the contact doing the lookup. -/
def c6s1 : Session :=
  { sess0 with
      name := "A"
      phone_number := "15550002222"
      current_flow := "ghost"
      current_step := "" }

def c6s2 : Session :=
  { sess0 with
      name := "B"
      current_flow := ""
      current_step := "" }

/-- C6 counterexample: with timeout 30 and now = 100 both sessions are
stale (last_activity 0 < 70), but session A references the nonexistent flow
"ghost"; the resulting exception aborts the single-try sweep loop before B
is processed, and the very next lookup returns B as a stale Active session
— it is neither marked Timeout nor stamped, contradicting the claim. -/
theorem c6_counterexample :
    (c6s2.status = Status.Active ∧ c6s2.last_activity < 100 - 30 ∧
      alookup ([] : List (String × ChatFlow)) c6s1.current_flow = Option.none) ∧
    (getActiveSession [] 30 100 "15550001111" "acct" [c6s1, c6s2] []).1 = some c6s2 ∧
    dbFind (getActiveSession [] 30 100 "15550001111" "acct" [c6s1, c6s2] []).2.1 "B" =
      some c6s2 :=
  ⟨⟨rfl, by decide, rfl⟩, by decide, by decide⟩

/-- The flow and session of the C6 witness. -/
def flowW : ChatFlow := { flowT with timeout_message := "Session timed out" }

def c6w : Session := { sess0 with name := "W", current_flow := "FW", current_step := "" }

/-- Witness for C6: a single stale Active session whose flow exists is
marked Timeout with completion stamped by the lookup, and the configured
timeout message is emitted. -/
theorem c6_witness :
    (([c6w].map Session.name).Nodup ∧ c6w.status = Status.Active ∧
      c6w.last_activity < 100 - 30 ∧
      alookup [("FW", flowW)] c6w.current_flow = some flowW) ∧
    dbFind (getActiveSession [("FW", flowW)] 30 100 "15550001111" "acct" [c6w] []).2.1
        c6w.name =
      some { c6w with status := Status.Timeout, completed_at := some 100 } ∧
    "Session timed out" ∈
      (getActiveSession [("FW", flowW)] 30 100 "15550001111" "acct" [c6w] []).2.2 :=
  ⟨⟨by decide, rfl, by decide, by decide⟩,
    ((c6_stale_sessions_reclassified [("FW", flowW)] 30 100 "15550001111" "acct" [c6w] []
        (by decide) (by decide)).1 c6w (by decide) rfl (by decide)).1,
    ((c6_stale_sessions_reclassified [("FW", flowW)] 30 100 "15550001111" "acct" [c6w] []
        (by decide) (by decide)).1 c6w (by decide) rfl (by decide)).2 flowW
      (by decide) (by decide) (by decide)⟩
